import Mathlib

set_option maxHeartbeats 1000000

/-!
Shallow embedding of the weighted-ensemble simulation core:

* `src/westext/weed/weed_driver.py` — the WEED equilibrium-reweighting driver
  (`WEEDDriver.get_rates`, `WEEDDriver.prepare_new_iteration`);
* `src/wemd/core/we_sim.py` — `WESimDriver.run_we` and `WESimDriver.run_sim`;
* `src/wemd/old/sim_managers/default.py` — `DefaultSimManager.run_we` and
  `DefaultSimManager.continue_simulation`.

Weights are modelled as exact rationals; machine epsilon appears as the exact
constant `EPS`, and Python `assert` failures and `KeyError`s are modelled with
`Except`.
-/

/-- Machine epsilon for IEEE binary64, `numpy.finfo(numpy.float64).eps`, as an
exact rational. -/
def EPS : ℚ := 1 / 2 ^ 52

/- ### WEED driver: configuration and state (`weed_driver.py`) -/

/-- Configuration consumed by `WEEDDriver.prepare_new_iteration`:
`weed.do_equilibrium_reweighting` and `weed.reweight_period`. -/
structure WEEDConfig where
  do_reweight : Bool
  reweight_period : ℤ
deriving DecidableEq

/-- The observable state touched by `WEEDDriver.prepare_new_iteration`:
the weights and occupancies of `we_driver.next_iter_binning`, the stored
`last_reweighting` attribute, flags recording whether the per-iteration
`weed` datasets were (re)created and whether rates were computed by this call,
and the log/pstatus diagnostics emitted so far. -/
structure WEEDState where
  bins : List ℚ
  counts : List ℕ
  last_reweighting : ℤ
  weedDataWritten : Bool
  ratesComputed : Bool
  diagnostics : List String
deriving DecidableEq

/-- Gate G1 of `prepare_new_iteration`: some bin with original weight > 0 was
assigned new weight 0 (`(orig_binprobs > 0) & (binprobs == 0)`). -/
def g1fail (orig new : List ℚ) : Bool :=
  (orig.zip new).any (fun p => decide (0 < p.1) && decide (p.2 = 0))

/-- Gate G2 of `prepare_new_iteration`: some bin with original weight 0 was
assigned new weight > 0 (`(orig_binprobs == 0) & (binprobs > 0)`). -/
def g2fail (orig new : List ℚ) : Bool :=
  (orig.zip new).any (fun p => decide (p.1 = 0) && decide (0 < p.2))

/-- `for (bin, newprob) in izip(bins, binprobs): bin.reweight(newprob)`:
each bin weight is replaced by the proposed probability; `izip` stops at the
shorter sequence, leaving any remaining bins untouched. -/
def applyReweight : List ℚ → List ℚ → List ℚ
  | [], _ => []
  | bs, [] => bs
  | _ :: bs, p :: ps => p :: applyReweight bs ps

/-- The guard `n_iter - last_reweighting < self.reweight_period` of
`prepare_new_iteration`. -/
def periodGuard (cfg : WEEDConfig) (n_iter last : ℤ) : Bool :=
  decide (n_iter - last < cfg.reweight_period)

/-- Diagnostic from `weed_driver.py` line 78. -/
def msg_sinks_present : String :=
  "equilibrium reweighting requested but target states present; reweighting disabled"

/-- Diagnostic from `weed_driver.py` line 128. -/
def msg_calculating : String := "Calculating equilibrium reweighting"

/-- Diagnostic from `weed_driver.py` line 129. -/
def msg_prior : String := "Bin probabilities prior to reweighting"

/-- Diagnostic from `weed_driver.py` line 140 (gate G2 rejection). -/
def msg_z2nz : String :=
  "Reweighting would assign nonzero probability to an empty bin; not reweighting this iteration."

/-- Diagnostic from `weed_driver.py` line 144 (acceptance). -/
def msg_after : String := "Bin populations after reweighting"

/-- AssertionError message from `weed_driver.py` line 135 (gate G1). -/
def msg_g1_assert : String := "populated bin reweighted to zero probability"

/-- AssertionError from the norm check at `weed_driver.py` lines 149-150. -/
def msg_norm_assert : String := "reweighting norm assertion failed"

/-- The final assertion of `prepare_new_iteration` (lines 149-150):
`abs(1 - sum of bin weights) < EPS * total number of particles`. -/
def finalAssert (st : WEEDState) : Except String WEEDState :=
  if |1 - st.bins.sum| < EPS * (st.counts.sum : ℚ) then .ok st else .error msg_norm_assert

/-- `WEEDDriver.prepare_new_iteration` (`weed_driver.py` lines 73-150).
`target_states` reflects `we_driver.target_states` being non-empty, and
`probAdjust` is the external collaborator `probAdjustEquil`
(`westext.weed.ProbAdjustEquil`, outside `src/`), represented by the
transformation it applies in place to the bin-probability vector.  The
intermediate dataset creation does not touch `last_reweighting` or the bin
weights, so the guards read them directly from `st`. -/
def prepare_new_iteration (cfg : WEEDConfig) (target_states : Bool) (n_iter : ℤ)
    (probAdjust : List ℚ → List ℚ) (st : WEEDState) : Except String WEEDState :=
  if target_states && cfg.do_reweight then
    .ok { st with diagnostics := st.diagnostics ++ [msg_sinks_present] }
  else if !cfg.do_reweight then
    .ok st
  else if periodGuard cfg n_iter st.last_reweighting then
    .ok { st with weedDataWritten := true }
  else if g1fail st.bins (probAdjust st.bins) then
    .error msg_g1_assert
  else if g2fail st.bins (probAdjust st.bins) then
    finalAssert { st with weedDataWritten := true
                          ratesComputed := true
                          diagnostics := st.diagnostics
                            ++ [msg_calculating, msg_prior, msg_z2nz] }
  else
    finalAssert { st with weedDataWritten := true
                          ratesComputed := true
                          bins := applyReweight st.bins (probAdjust st.bins)
                          last_reweighting := n_iter
                          diagnostics := st.diagnostics
                            ++ [msg_calculating, msg_prior, msg_after] }

/- ### Claim C1 -/

/-- Concrete state for exercising gate G1: two populated bins of weight 1/2. -/
def c1State : WEEDState :=
  { bins := [1/2, 1/2], counts := [1, 1], last_reweighting := 0,
    weedDataWritten := false, ratesComputed := false, diagnostics := [] }

/-- Concrete configuration with reweighting enabled every iteration. -/
def c1Config : WEEDConfig := { do_reweight := true, reweight_period := 0 }

/-- Claim C1 counterexample: the claim says that every safety-gate failure is
handled by retaining the original weights and reporting a diagnostic, with no
gate failure terminating the run.  But when `probAdjustEquil` assigns new
weight 0 to a bin of original weight 1/2 (gate G1 fails), `prepare_new_iteration`
raises an AssertionError (`weed_driver.py` line 135): the call aborts with an
error instead of returning normally. -/
theorem c1_gate_counterexample :
    g1fail c1State.bins [0, 1] = true ∧
    prepare_new_iteration c1Config false 1 (fun _ => [0, 1]) c1State
      = .error msg_g1_assert := by
  constructor
  · norm_num [g1fail, c1State]
  · norm_num [prepare_new_iteration, c1Config, c1State, periodGuard, g1fail]

/-- Claim C1 amended: when gate G2 fails (a bin of original weight 0 assigned
new weight > 0) the reweighting is rejected without terminating the run: the
original bin weights are retained, the rejection diagnostic is reported, and
`last_reweighting` is unchanged.  A G1 failure (a bin of original weight > 0
assigned new weight 0) instead raises an AssertionError that aborts
`prepare_new_iteration`. -/
theorem c1_gate_failure_behavior (cfg : WEEDConfig) (n_iter : ℤ)
    (probAdjust : List ℚ → List ℚ) (st : WEEDState)
    (hdo : cfg.do_reweight = true)
    (hpg : periodGuard cfg n_iter st.last_reweighting = false)
    (hg1 : g1fail st.bins (probAdjust st.bins) = false)
    (hg2 : g2fail st.bins (probAdjust st.bins) = true)
    (hnorm : |1 - st.bins.sum| < EPS * (st.counts.sum : ℚ)) :
    (∃ st', prepare_new_iteration cfg false n_iter probAdjust st = .ok st' ∧
      st'.bins = st.bins ∧
      st'.last_reweighting = st.last_reweighting ∧
      msg_z2nz ∈ st'.diagnostics) ∧
    (∀ probAdjust2 : List ℚ → List ℚ, g1fail st.bins (probAdjust2 st.bins) = true →
      prepare_new_iteration cfg false n_iter probAdjust2 st = .error msg_g1_assert) := by
  constructor
  · refine ⟨{ st with weedDataWritten := true
                      ratesComputed := true
                      diagnostics := st.diagnostics
                        ++ [msg_calculating, msg_prior, msg_z2nz] },
      ?_, rfl, rfl, by simp⟩
    simp only [prepare_new_iteration, hdo, hpg, hg1, hg2, Bool.false_and,
      Bool.not_true, if_false, ite_false, Bool.false_eq_true, ite_true]
    unfold finalAssert
    rw [if_pos hnorm]
  · intro probAdjust2 hg1'
    simp [prepare_new_iteration, hdo, hpg, hg1']

/-- Concrete state for the amended-C1 witness: bins `[1, 0]`, so that gate G2
fires when `probAdjustEquil` proposes `[1/2, 1/2]` while gate G1 passes. -/
def c1wState : WEEDState :=
  { bins := [1, 0], counts := [1, 0], last_reweighting := 0,
    weedDataWritten := false, ratesComputed := false, diagnostics := [] }

/-- Witness for `c1_gate_failure_behavior` at a concrete input. -/
theorem c1_gate_failure_behavior_witness :
    (c1Config.do_reweight = true ∧
     periodGuard c1Config 1 c1wState.last_reweighting = false ∧
     g1fail c1wState.bins ((fun _ => [1/2, 1/2]) c1wState.bins) = false ∧
     g2fail c1wState.bins ((fun _ => [1/2, 1/2]) c1wState.bins) = true ∧
     |1 - c1wState.bins.sum| < EPS * (c1wState.counts.sum : ℚ)) ∧
    ((∃ st', prepare_new_iteration c1Config false 1 (fun _ => [1/2, 1/2]) c1wState
        = .ok st' ∧
      st'.bins = c1wState.bins ∧
      st'.last_reweighting = c1wState.last_reweighting ∧
      msg_z2nz ∈ st'.diagnostics) ∧
    (∀ probAdjust2 : List ℚ → List ℚ,
      g1fail c1wState.bins (probAdjust2 c1wState.bins) = true →
      prepare_new_iteration c1Config false 1 probAdjust2 c1wState
        = .error msg_g1_assert)) :=
  ⟨⟨rfl, by decide, by norm_num [g1fail, c1wState], by norm_num [g2fail, c1wState],
    by norm_num [c1wState, EPS]⟩,
   c1_gate_failure_behavior c1Config 1 (fun _ => [1/2, 1/2]) c1wState
     rfl (by decide) (by norm_num [g1fail, c1wState]) (by norm_num [g2fail, c1wState])
     (by norm_num [c1wState, EPS])⟩

/- ### Claim C7 -/

/-- Claim C7: `prepare_new_iteration` does its reweighting work only when
equilibrium reweighting is enabled and no target (sink) states are configured.
If sinks are present while reweighting is enabled it reports the diagnostic
and returns with bin weights, stored data, and counters untouched; if
reweighting is disabled it returns the state unchanged; and rates are never
computed unless reweighting is enabled with no sinks. -/
theorem c7_reweight_guard (cfg : WEEDConfig) (n_iter : ℤ)
    (probAdjust : List ℚ → List ℚ) (st : WEEDState) :
    (cfg.do_reweight = true →
      prepare_new_iteration cfg true n_iter probAdjust st
        = .ok { st with diagnostics := st.diagnostics ++ [msg_sinks_present] }) ∧
    (cfg.do_reweight = false → ∀ ts : Bool,
      prepare_new_iteration cfg ts n_iter probAdjust st = .ok st) ∧
    (∀ (ts : Bool) (st' : WEEDState), st.ratesComputed = false →
      (cfg.do_reweight = false ∨ ts = true) →
      prepare_new_iteration cfg ts n_iter probAdjust st = .ok st' →
      st'.ratesComputed = false) := by
  refine ⟨?_, ?_, ?_⟩
  · intro hdo
    simp [prepare_new_iteration, hdo]
  · intro hdo ts
    simp [prepare_new_iteration, hdo]
  · intro ts st' hrc hcase hok
    rcases hcase with hdo | hts
    · simp [prepare_new_iteration, hdo] at hok
      rw [← hok]
      exact hrc
    · subst hts
      by_cases hdo : cfg.do_reweight = true
      · simp [prepare_new_iteration, hdo] at hok
        rw [← hok]
        exact hrc
      · simp only [Bool.not_eq_true] at hdo
        simp [prepare_new_iteration, hdo] at hok
        rw [← hok]
        exact hrc

/-- Concrete configuration with reweighting enabled for the C7 witness. -/
def c7Config : WEEDConfig := { do_reweight := true, reweight_period := 5 }

/-- Concrete state for the C7 witness. -/
def c7State : WEEDState :=
  { bins := [1], counts := [3], last_reweighting := 0,
    weedDataWritten := false, ratesComputed := false, diagnostics := [] }

/-- Witness for `c7_reweight_guard` at a concrete input: with sinks present and
reweighting enabled, the driver only reports the diagnostic. -/
theorem c7_reweight_guard_witness :
    c7Config.do_reweight = true ∧
    prepare_new_iteration c7Config true 3 id c7State
      = .ok { c7State with diagnostics := c7State.diagnostics ++ [msg_sinks_present] } :=
  ⟨rfl, (c7_reweight_guard c7Config 3 id c7State).1 rfl⟩

/- ### Claim C8 -/

/-- Claim C8: with reweighting enabled and no sinks, `prepare_new_iteration`
is a no-op (no rates computed, no weights changed, counter unchanged) exactly
while `n_iter - last_reweighting < reweight_period`; with `reweight_period = 0`
the guard never fires once `last_reweighting ≤ n_iter`; and on a normal return
`last_reweighting` is set to `n_iter` precisely when the proposed reweighting
was accepted (gate G2 did not fire). -/
theorem c8_reweight_period (cfg : WEEDConfig) (n_iter : ℤ)
    (probAdjust : List ℚ → List ℚ) (st : WEEDState)
    (hdo : cfg.do_reweight = true) :
    (periodGuard cfg n_iter st.last_reweighting = true →
      prepare_new_iteration cfg false n_iter probAdjust st
        = .ok { st with weedDataWritten := true }) ∧
    (cfg.reweight_period = 0 → st.last_reweighting ≤ n_iter →
      periodGuard cfg n_iter st.last_reweighting = false) ∧
    (∀ st' : WEEDState, periodGuard cfg n_iter st.last_reweighting = false →
      st.last_reweighting ≠ n_iter →
      prepare_new_iteration cfg false n_iter probAdjust st = .ok st' →
      (st'.last_reweighting = n_iter ↔ g2fail st.bins (probAdjust st.bins) = false)) := by
  refine ⟨?_, ?_, ?_⟩
  · intro hpg
    simp [prepare_new_iteration, hdo, hpg]
  · intro hper hle
    unfold periodGuard
    rw [hper]
    simpa using hle
  · intro st' hpg hne hok
    simp only [prepare_new_iteration, hdo, hpg, Bool.false_and, Bool.not_true,
      Bool.false_eq_true, if_false, ite_false] at hok
    by_cases hg1 : g1fail st.bins (probAdjust st.bins) = true
    · rw [if_pos (by simp [hg1])] at hok
      cases hok
    · rw [if_neg (by simp [hg1])] at hok
      by_cases hg2 : g2fail st.bins (probAdjust st.bins) = true
      · rw [if_pos (by simp [hg2])] at hok
        unfold finalAssert at hok
        split at hok
        · cases hok
          simp only [hg2]
          simpa using hne
        · cases hok
      · rw [if_neg (by simp [hg2])] at hok
        unfold finalAssert at hok
        split at hok
        · cases hok
          simp only [Bool.not_eq_true] at hg2
          simp [hg2]
        · cases hok

/-- Concrete configuration for the C8 witness: period 5 still pending. -/
def c8Config : WEEDConfig := { do_reweight := true, reweight_period := 5 }

/-- Concrete state for the C8 witness. -/
def c8State : WEEDState :=
  { bins := [1/4, 3/4], counts := [1, 2], last_reweighting := 2,
    weedDataWritten := false, ratesComputed := false, diagnostics := [] }

/-- Witness for `c8_reweight_period` at a concrete input: at iteration 4, only
2 iterations after the last reweighting, the driver does nothing but create its
datasets. -/
theorem c8_reweight_period_witness :
    c8Config.do_reweight = true ∧
    periodGuard c8Config 4 c8State.last_reweighting = true ∧
    prepare_new_iteration c8Config false 4 id c8State
      = .ok { c8State with weedDataWritten := true } :=
  ⟨rfl, by decide, (c8_reweight_period c8Config 4 id c8State rfl).1 (by decide)⟩

/- ### WE simulation driver (`we_sim.py`) -/

/-- Segment status (`Segment.SEG_STATUS_*`). -/
inductive SegStatus
  | prepared
  | running
  | complete
  | failed
deriving DecidableEq

/-- A persisted segment row, with the fields touched by `WESimDriver.run_we`. -/
structure DBSegment where
  seg_id : ℤ
  we_iter : ℤ
  status : SegStatus
  weight : ℚ
  walltime : ℚ
  cputime : ℚ
  p_parent : Option ℤ
  parents : List ℤ
  data_ref : Option String
deriving DecidableEq

/-- A `WESimIter` summary row. -/
structure SummaryRec where
  we_iter : ℤ
  n_particles : ℕ
  norm : ℚ
  walltime : Option ℚ
  cputime : Option ℚ
deriving DecidableEq

/-- The database behind the `dbsession`: segment rows, per-iteration summary
rows, and the next primary key handed out when new rows are flushed. -/
structure Store where
  segments : List DBSegment
  summaries : List SummaryRec
  nextId : ℤ
deriving DecidableEq

/-- A particle as returned by the external WE resampler
(`wemd.we_drivers`, outside `src/`): weight, optional primary-parent id, and
merge-parent ids. -/
structure WEParticle where
  weight : ℚ
  p_parent : Option ℤ
  parents : List ℤ
deriving DecidableEq

/-- Errors surfaced by `WESimDriver.run_we`. -/
inductive WEErr
  | propagationIncomplete (n : ℕ)
  | storeError (msg : String)
deriving DecidableEq

/-- `WESimDriver.q_incomplete_segments(...).count()`: number of segments of
the given iteration whose status is not COMPLETE (`we_sim.py` lines 148-154). -/
def q_incomplete_count (store : Store) (we_iter : ℤ) : ℕ :=
  (store.segments.filter
    (fun s => decide (s.we_iter = we_iter ∧ s.status ≠ SegStatus.complete))).length

/-- `query(SUM(Segment.f)).filter(Segment.we_iter == we_iter)`. -/
def sum_seg_field (store : Store) (we_iter : ℤ) (f : DBSegment → ℚ) : ℚ :=
  ((store.segments.filter (fun s => decide (s.we_iter = we_iter))).map f).sum

/-- The first transaction of `run_we` (`we_sim.py` lines 172-178): close out
the current iteration's summary with the accumulated wall and CPU time. -/
def close_current_summary (store : Store) (we_iter : ℤ) : Store :=
  { store with summaries := store.summaries.map (fun r =>
      if r.we_iter = we_iter then
        { r with walltime := some (sum_seg_field store we_iter (fun s => s.walltime))
                 cputime := some (sum_seg_field store we_iter (fun s => s.cputime)) }
      else r) }

/-- `sq.get([pid])`: fetch a segment row by primary key (`None` if absent). -/
def sq_get (store : Store) (pid : ℤ) : Option DBSegment :=
  store.segments.find? (fun s => decide (s.seg_id = pid))

/-- Particle-to-row conversion inside the second transaction of `run_we`
(lines 192-205): a PREPARED segment of the new iteration whose primary parent
is resolved with `sq.get` (missing row gives NULL) and whose merge parents are
resolved with an SQL `IN` filter (missing rows silently drop out). -/
def particle_to_segment (store : Store) (new_we_iter : ℤ) (p : WEParticle) : DBSegment :=
  { seg_id := 0
    we_iter := new_we_iter
    status := SegStatus.prepared
    weight := p.weight
    walltime := 0
    cputime := 0
    p_parent := p.p_parent.bind (fun pid => (sq_get store pid).map (fun s => s.seg_id))
    parents := p.parents.filter (fun pid => (sq_get store pid).isSome)
    data_ref := none }

/-- The first `flush` assigns consecutive primary keys to the new rows. -/
def assign_seg_ids (nextId : ℤ) : List DBSegment → List DBSegment
  | [] => []
  | s :: ss => { s with seg_id := nextId } :: assign_seg_ids (nextId + 1) ss

/-- `segment.data_ref = self.make_data_ref(segment)` for each new row; the
template substitution `mdr` may raise, failing the enclosing transaction. -/
def assign_data_refs (mdr : DBSegment → Except String String) :
    List DBSegment → Except String (List DBSegment)
  | [] => .ok []
  | s :: ss =>
    match mdr s with
    | .error e => .error e
    | .ok dr =>
      match assign_data_refs mdr ss with
      | .error e => .error e
      | .ok rest => .ok ({ s with data_ref := some dr } :: rest)

/-- Body of the second transaction of `run_we` (lines 190-227): insert the new
iteration's segments, assign their data references, and insert the new
iteration summary, whose norm is the sum of the new segments' weights. -/
def commit_body (new_we_iter : ℤ) (particles : List WEParticle)
    (mdr : DBSegment → Except String String) (s : Store) : Except String Store :=
  match assign_data_refs mdr
      (assign_seg_ids s.nextId (particles.map (particle_to_segment s new_we_iter))) with
  | .error e => .error e
  | .ok segs =>
    .ok { s with segments := s.segments ++ segs
                 summaries := s.summaries ++ [{ we_iter := new_we_iter
                                                n_particles := segs.length
                                                norm := (segs.map (fun sg => sg.weight)).sum
                                                walltime := none
                                                cputime := none }]
                 nextId := s.nextId + (segs.length : ℤ) }

/-- Observable outcome of one `run_we` call: the resulting database, the
exception propagated out of the call if any, and whether the WE resampler was
reached. -/
structure RunWeResult where
  store : Store
  error : Option WEErr
  resampled : Bool
deriving DecidableEq

/-- `WESimDriver.run_we` (`we_sim.py` lines 162-233).  `particles` is the
output of the external resampler `we_driver.run_we` and `new_we_iter` the
resampler's advanced iteration counter; `mdr` is `make_data_ref`.  If any
segment of the current iteration is not COMPLETE the call raises
PropagationIncompleteError before any resampling; a failure inside the second
transaction rolls the session back and re-raises. -/
def run_we (store : Store) (current_iteration new_we_iter : ℤ)
    (particles : List WEParticle) (mdr : DBSegment → Except String String) :
    RunWeResult :=
  let n_inc := q_incomplete_count store current_iteration
  if n_inc ≠ 0 then
    { store := store, error := some (WEErr.propagationIncomplete n_inc), resampled := false }
  else
    let store1 := close_current_summary store current_iteration
    match commit_body new_we_iter particles mdr store1 with
    | .ok s2 => { store := s2, error := none, resampled := true }
    | .error e => { store := store1, error := some (WEErr.storeError e), resampled := true }

/- ### Helper lemmas about the commit path -/

lemma assign_seg_ids_map_weight (n : ℤ) (segs : List DBSegment) :
    (assign_seg_ids n segs).map (fun s => s.weight) = segs.map (fun s => s.weight) := by
  induction segs generalizing n with
  | nil => rfl
  | cons s ss ih => simp [assign_seg_ids, ih]

lemma assign_data_refs_map_weight (mdr : DBSegment → Except String String)
    (segs segs' : List DBSegment) (h : assign_data_refs mdr segs = .ok segs') :
    segs'.map (fun s => s.weight) = segs.map (fun s => s.weight) := by
  induction segs generalizing segs' with
  | nil =>
    unfold assign_data_refs at h
    cases h
    rfl
  | cons s ss ih =>
    unfold assign_data_refs at h
    cases hm : mdr s with
    | error e => rw [hm] at h; cases h
    | ok dr =>
      rw [hm] at h
      cases hr : assign_data_refs mdr ss with
      | error e => rw [hr] at h; cases h
      | ok rest =>
        rw [hr] at h
        cases h
        simp [ih rest hr]

lemma assign_data_refs_length (mdr : DBSegment → Except String String)
    (segs segs' : List DBSegment) (h : assign_data_refs mdr segs = .ok segs') :
    segs'.length = segs.length := by
  have := assign_data_refs_map_weight mdr segs segs' h
  have h1 : (segs'.map (fun s => s.weight)).length = (segs.map (fun s => s.weight)).length :=
    congrArg List.length this
  simpa using h1

lemma close_current_summary_segments (store : Store) (cur : ℤ) :
    (close_current_summary store cur).segments = store.segments := rfl

lemma close_current_summary_we_iters (store : Store) (cur : ℤ) :
    (close_current_summary store cur).summaries.map (fun r => r.we_iter)
      = store.summaries.map (fun r => r.we_iter) := by
  unfold close_current_summary
  rw [List.map_map]
  apply List.map_congr_left
  intro r _
  by_cases h : r.we_iter = cur <;> simp [h]

/- ### Claim C4 -/

/-- Claim C4: `run_we` raises PropagationIncompleteError, before performing
any resampling or writing anything, exactly when some segment of the current
iteration has status other than COMPLETE; when all are COMPLETE this error is
never raised. -/
theorem c4_propagation_incomplete (store : Store) (cur nwi : ℤ)
    (particles : List WEParticle) (mdr : DBSegment → Except String String) :
    (q_incomplete_count store cur ≠ 0 ↔
      ∃ s ∈ store.segments, s.we_iter = cur ∧ s.status ≠ SegStatus.complete) ∧
    (q_incomplete_count store cur ≠ 0 →
      run_we store cur nwi particles mdr
        = { store := store
            error := some (WEErr.propagationIncomplete (q_incomplete_count store cur))
            resampled := false }) ∧
    (q_incomplete_count store cur = 0 →
      ∀ n, (run_we store cur nwi particles mdr).error
        ≠ some (WEErr.propagationIncomplete n)) := by
  refine ⟨?_, ?_, ?_⟩
  · unfold q_incomplete_count
    rw [Ne, List.length_eq_zero]
    constructor
    · intro h
      rcases List.exists_mem_of_ne_nil _ h with ⟨s, hs⟩
      rw [List.mem_filter] at hs
      exact ⟨s, hs.1, by simpa using hs.2⟩
    · rintro ⟨s, hmem, hprop⟩ hnil
      have : s ∈ store.segments.filter
          (fun s => decide (s.we_iter = cur ∧ s.status ≠ SegStatus.complete)) := by
        rw [List.mem_filter]
        exact ⟨hmem, by simpa using hprop⟩
      rw [hnil] at this
      cases this
  · intro h
    unfold run_we
    rw [if_pos h]
  · intro h n
    unfold run_we
    rw [if_neg (by simp [h])]
    cases hc : commit_body nwi particles mdr (close_current_summary store cur) <;> simp [hc]

/-- A store holding one still-RUNNING segment of iteration 0. -/
def c4wStore : Store :=
  { segments := [{ seg_id := 1, we_iter := 0, status := SegStatus.running, weight := 1,
                   walltime := 0, cputime := 0, p_parent := none, parents := [],
                   data_ref := none }]
    summaries := [{ we_iter := 0, n_particles := 1, norm := 1,
                    walltime := none, cputime := none }]
    nextId := 2 }

/-- Trivial data-reference template for witnesses. -/
def okMdr : DBSegment → Except String String := fun _ => .ok "traj_segs/ref"

/-- Witness for `c4_propagation_incomplete`: with one RUNNING segment the call
raises PropagationIncompleteError leaving the store untouched. -/
theorem c4_propagation_incomplete_witness :
    q_incomplete_count c4wStore 0 ≠ 0 ∧
    run_we c4wStore 0 1 [] okMdr
      = { store := c4wStore
          error := some (WEErr.propagationIncomplete (q_incomplete_count c4wStore 0))
          resampled := false } :=
  ⟨by decide, (c4_propagation_incomplete c4wStore 0 1 [] okMdr).2.1 (by decide)⟩

/- ### Claim C3 -/

/-- Claim C3: the per-iteration commit is transactional.  With propagation
complete, inserting the iteration `nwi` segments, assigning their data
references, and writing the new iteration summary happen in the single
transaction `commit_body`; if any error occurs during it, `run_we` leaves
the store as it was before the transaction began (no new segment rows, no new
summary row) and re-raises the error, and on success all of them are
persisted. -/
theorem c3_commit_transactional (store : Store) (cur nwi : ℤ)
    (particles : List WEParticle) (mdr : DBSegment → Except String String)
    (hinc : q_incomplete_count store cur = 0) :
    (∀ e, commit_body nwi particles mdr (close_current_summary store cur) = .error e →
      (run_we store cur nwi particles mdr).store.segments = store.segments ∧
      (run_we store cur nwi particles mdr).store.summaries.map (fun r => r.we_iter)
        = store.summaries.map (fun r => r.we_iter) ∧
      (run_we store cur nwi particles mdr).error = some (WEErr.storeError e)) ∧
    (∀ s2, commit_body nwi particles mdr (close_current_summary store cur) = .ok s2 →
      (run_we store cur nwi particles mdr).store = s2 ∧
      (run_we store cur nwi particles mdr).error = none ∧
      (∃ segs, assign_data_refs mdr (assign_seg_ids store.nextId
          (particles.map (particle_to_segment (close_current_summary store cur) nwi)))
          = .ok segs ∧
        s2.segments = store.segments ++ segs ∧
        s2.summaries = (close_current_summary store cur).summaries
          ++ [{ we_iter := nwi
                n_particles := segs.length
                norm := (segs.map (fun sg => sg.weight)).sum
                walltime := none
                cputime := none }])) := by
  constructor
  · intro e he
    unfold run_we
    rw [if_neg (by simp [hinc])]
    dsimp only
    rw [he]
    exact ⟨rfl, close_current_summary_we_iters store cur, rfl⟩
  · intro s2 hs2
    unfold run_we
    rw [if_neg (by simp [hinc])]
    dsimp only
    rw [hs2]
    refine ⟨rfl, rfl, ?_⟩
    unfold commit_body at hs2
    cases hr : assign_data_refs mdr (assign_seg_ids store.nextId
        (particles.map (particle_to_segment (close_current_summary store cur) nwi))) with
    | error e =>
      rw [show (close_current_summary store cur).nextId = store.nextId from rfl] at hs2
      rw [hr] at hs2
      cases hs2
    | ok segs =>
      rw [show (close_current_summary store cur).nextId = store.nextId from rfl] at hs2
      rw [hr] at hs2
      cases hs2
      exact ⟨segs, rfl, rfl, rfl⟩

/-- A store holding one COMPLETE segment of iteration 0. -/
def c3wStore : Store :=
  { segments := [{ seg_id := 1, we_iter := 0, status := SegStatus.complete, weight := 1,
                   walltime := 0, cputime := 0, p_parent := none, parents := [],
                   data_ref := none }]
    summaries := [{ we_iter := 0, n_particles := 1, norm := 1,
                    walltime := none, cputime := none }]
    nextId := 2 }

/-- A data-reference template that raises (e.g. KeyError in
`Template.substitute`), failing the commit transaction. -/
def failMdr : DBSegment → Except String String := fun _ => .error "KeyError"

/-- One resampled particle continuing segment 1. -/
def c3wParticles : List WEParticle := [{ weight := 1, p_parent := some 1, parents := [] }]

/-- Witness for `c3_commit_transactional`: with a failing data-reference
template the transaction aborts and the new rows are rolled back. -/
theorem c3_commit_transactional_witness :
    q_incomplete_count c3wStore 0 = 0 ∧
    commit_body 1 c3wParticles failMdr (close_current_summary c3wStore 0)
      = .error "KeyError" ∧
    (run_we c3wStore 0 1 c3wParticles failMdr).store.segments = c3wStore.segments ∧
    (run_we c3wStore 0 1 c3wParticles failMdr).store.summaries.map (fun r => r.we_iter)
      = c3wStore.summaries.map (fun r => r.we_iter) ∧
    (run_we c3wStore 0 1 c3wParticles failMdr).error
      = some (WEErr.storeError "KeyError") := by
  have hinc : q_incomplete_count c3wStore 0 = 0 := by decide
  have hcb : commit_body 1 c3wParticles failMdr (close_current_summary c3wStore 0)
      = .error "KeyError" := by
    unfold commit_body
    simp [c3wParticles, assign_seg_ids, assign_data_refs, failMdr]
  have h := (c3_commit_transactional c3wStore 0 1 c3wParticles failMdr hinc).1
    "KeyError" hcb
  exact ⟨hinc, hcb, h.1, h.2.1, h.2.2⟩

/- ### Claim C2 -/

lemma assign_seg_ids_length (n : ℤ) (segs : List DBSegment) :
    (assign_seg_ids n segs).length = segs.length := by
  induction segs generalizing n with
  | nil => rfl
  | cons s ss ih => simp [assign_seg_ids, ih]

lemma prepare_ok_norm_assert (cfg : WEEDConfig) (ts : Bool) (n_iter : ℤ)
    (probAdjust : List ℚ → List ℚ) (st st' : WEEDState)
    (hst : st.ratesComputed = false)
    (hok : prepare_new_iteration cfg ts n_iter probAdjust st = .ok st')
    (hrc : st'.ratesComputed = true) :
    |1 - st'.bins.sum| < EPS * (st'.counts.sum : ℚ) := by
  unfold prepare_new_iteration at hok
  split at hok
  · cases hok
    simp [hst] at hrc
  · split at hok
    · cases hok
      simp [hst] at hrc
    · split at hok
      · cases hok
        simp [hst] at hrc
      · split at hok
        · cases hok
        · split at hok
          · unfold finalAssert at hok
            split at hok
            next h =>
              cases hok
              exact h
            next h => cases hok
          · unfold finalAssert at hok
            split at hok
            next h =>
              cases hok
              exact h
            next h => cases hok

lemma run_we_ok_summary (store : Store) (cur nwi : ℤ)
    (particles : List WEParticle) (mdr : DBSegment → Except String String)
    (hr : (run_we store cur nwi particles mdr).error = none) :
    ∃ s : SummaryRec,
      (run_we store cur nwi particles mdr).store.summaries
        = (close_current_summary store cur).summaries ++ [s] ∧
      s.we_iter = nwi ∧
      s.norm = (particles.map (fun p => p.weight)).sum ∧
      s.n_particles = particles.length := by
  unfold run_we at hr ⊢
  by_cases h : q_incomplete_count store cur ≠ 0
  · rw [if_pos h] at hr
    cases hr
  · rw [if_neg h] at hr ⊢
    dsimp only at hr ⊢
    cases hc : commit_body nwi particles mdr (close_current_summary store cur) with
    | error e =>
      simp only [hc] at hr
      cases hr
    | ok s2 =>
      dsimp only
      unfold commit_body at hc
      cases hadr : assign_data_refs mdr
          (assign_seg_ids (close_current_summary store cur).nextId
            (particles.map (particle_to_segment (close_current_summary store cur) nwi))) with
      | error e =>
        rw [hadr] at hc
        cases hc
      | ok segs =>
        rw [hadr] at hc
        cases hc
        refine ⟨_, rfl, rfl, ?_, ?_⟩
        · have h1 := assign_data_refs_map_weight mdr _ segs hadr
          have h2 := assign_seg_ids_map_weight (close_current_summary store cur).nextId
            (particles.map (particle_to_segment (close_current_summary store cur) nwi))
          rw [congrArg List.sum h1, congrArg List.sum h2, List.map_map]
          rfl
        · rw [assign_data_refs_length mdr _ segs hadr, assign_seg_ids_length,
            List.length_map]

/-- Claim C2: the committed iteration summary's norm equals the sum of the new
segments' weights, and when the resampler conserves total probability (sum of
resampled particle weights = 1, exact in this embedding) the committed total
weight differs from 1 by at most EPS times the particle count; moreover any
completed reweighting pass (accepted or rejected) leaves bin weights summing
to 1 within EPS times the number of particles, enforced by the final assertion
of `prepare_new_iteration`. -/
theorem c2_norm_invariant
    (store : Store) (cur nwi : ℤ) (particles : List WEParticle)
    (mdr : DBSegment → Except String String)
    (cfg : WEEDConfig) (ts : Bool) (n_iter : ℤ) (probAdjust : List ℚ → List ℚ)
    (st st' : WEEDState)
    (hsum : (particles.map (fun p => p.weight)).sum = 1)
    (hr : (run_we store cur nwi particles mdr).error = none)
    (hst : st.ratesComputed = false)
    (hok : prepare_new_iteration cfg ts n_iter probAdjust st = .ok st')
    (hrc : st'.ratesComputed = true) :
    (∃ s : SummaryRec,
      (run_we store cur nwi particles mdr).store.summaries
        = (close_current_summary store cur).summaries ++ [s] ∧
      s.norm = (particles.map (fun p => p.weight)).sum ∧
      s.n_particles = particles.length ∧
      |s.norm - 1| ≤ EPS * (s.n_particles : ℚ)) ∧
    |1 - st'.bins.sum| < EPS * (st'.counts.sum : ℚ) := by
  refine ⟨?_, prepare_ok_norm_assert cfg ts n_iter probAdjust st st' hst hok hrc⟩
  rcases run_we_ok_summary store cur nwi particles mdr hr with ⟨s, hsums, _, hnorm, hnp⟩
  refine ⟨s, hsums, hnorm, hnp, ?_⟩
  rw [hnorm, hsum]
  simp only [sub_self, abs_zero]
  have heps : (0 : ℚ) ≤ EPS := by norm_num [EPS]
  exact mul_nonneg heps (by positivity)

/-- A store holding one COMPLETE segment of iteration 0, for the C2 witness. -/
def c2wStore : Store :=
  { segments := [{ seg_id := 1, we_iter := 0, status := SegStatus.complete, weight := 1,
                   walltime := 0, cputime := 0, p_parent := none, parents := [],
                   data_ref := none }]
    summaries := [{ we_iter := 0, n_particles := 1, norm := 1,
                    walltime := none, cputime := none }]
    nextId := 2 }

/-- One resampled particle of weight 1 continuing segment 1. -/
def c2wParticles : List WEParticle := [{ weight := 1, p_parent := some 1, parents := [] }]

/-- Initial WEED state for the C2 witness: one bin of weight 1. -/
def c2wWeedIn : WEEDState :=
  { bins := [1], counts := [1], last_reweighting := 0,
    weedDataWritten := false, ratesComputed := false, diagnostics := [] }

/-- The state produced by an accepted (identity) reweighting at iteration 1. -/
def c2wWeedOut : WEEDState :=
  { bins := [1], counts := [1], last_reweighting := 1,
    weedDataWritten := true, ratesComputed := true,
    diagnostics := [msg_calculating, msg_prior, msg_after] }

/-- WEED configuration for the C2 witness. -/
def c2wConfig : WEEDConfig := { do_reweight := true, reweight_period := 0 }

/-- Witness for `c2_norm_invariant` at a concrete input. -/
theorem c2_norm_invariant_witness :
    ((c2wParticles.map (fun p => p.weight)).sum = 1 ∧
     (run_we c2wStore 0 1 c2wParticles okMdr).error = none ∧
     c2wWeedIn.ratesComputed = false ∧
     prepare_new_iteration c2wConfig false 1 id c2wWeedIn = .ok c2wWeedOut ∧
     c2wWeedOut.ratesComputed = true) ∧
    ((∃ s : SummaryRec,
      (run_we c2wStore 0 1 c2wParticles okMdr).store.summaries
        = (close_current_summary c2wStore 0).summaries ++ [s] ∧
      s.norm = (c2wParticles.map (fun p => p.weight)).sum ∧
      s.n_particles = c2wParticles.length ∧
      |s.norm - 1| ≤ EPS * (s.n_particles : ℚ)) ∧
    |1 - c2wWeedOut.bins.sum| < EPS * (c2wWeedOut.counts.sum : ℚ)) := by
  have hsum : (c2wParticles.map (fun p => p.weight)).sum = 1 := by
    norm_num [c2wParticles]
  have hr : (run_we c2wStore 0 1 c2wParticles okMdr).error = none := by
    norm_num [run_we, q_incomplete_count, commit_body, close_current_summary,
      assign_seg_ids, assign_data_refs, particle_to_segment, sq_get, okMdr,
      c2wStore, c2wParticles, sum_seg_field]
  have hok : prepare_new_iteration c2wConfig false 1 id c2wWeedIn = .ok c2wWeedOut := by
    norm_num [prepare_new_iteration, periodGuard, g1fail, g2fail, applyReweight,
      finalAssert, EPS, c2wConfig, c2wWeedIn, c2wWeedOut]
  exact ⟨⟨hsum, hr, rfl, hok, rfl⟩,
    c2_norm_invariant c2wStore 0 1 c2wParticles okMdr c2wConfig false 1 id
      c2wWeedIn c2wWeedOut hsum hr rfl hok rfl⟩

/- ### Old sim manager (`default.py`) -/

/-- `Segment.SEG_ENDPOINT_TYPE_*` in the old manager. -/
inductive MgrEndpoint
  | continuation
  | merged
  | recycled
deriving DecidableEq

/-- A segment row as manipulated by `DefaultSimManager.run_we`: lineage fields
plus `data['initial_region']`. -/
structure MgrSegment where
  seg_id : ℤ
  n_iter : ℤ
  weight : ℚ
  endpoint_type : MgrEndpoint
  initial_region : Option String
  p_parent : Option ℤ
  parents : List ℤ
deriving DecidableEq

/-- A WE particle of the current iteration (element of `particles_merged` /
`particles_escaped`), identified by `particle_id`. -/
structure MgrParticle where
  particle_id : ℤ
  weight : ℚ
  initial_region : Option String
deriving DecidableEq

/-- A particle produced by the resampler for the next iteration, as consumed
by the new-segment loop of `DefaultSimManager.run_we` (lines 239-273). -/
structure MgrNewParticle where
  weight : ℚ
  p_parent : Option MgrParticle
  parents : List MgrParticle
  initial_region : Option String
deriving DecidableEq

/-- Python truthiness of `particle.initial_region` (`None` and the empty
string are falsy). -/
def truthy : Option String → Bool
  | none => false
  | some s => !s.isEmpty

/-- `segments_by_id.has_key(pid)` for the dictionary built at line 211. -/
def seg_ids_contain (segments : List MgrSegment) (pid : ℤ) : Bool :=
  segments.any (fun s => decide (s.seg_id = pid))

/-- `segments_by_id[pid].endpoint_type = et`: update the matching row. -/
def set_endpoint (segments : List MgrSegment) (pid : ℤ) (et : MgrEndpoint) :
    List MgrSegment :=
  segments.map (fun s => if s.seg_id = pid then { s with endpoint_type := et } else s)

/-- The merged-particle loop of `default.py` lines 213-215: a particle whose
id is not among the input segments is silently skipped. -/
def mark_merged_particles (segments : List MgrSegment) :
    List MgrParticle → List MgrSegment
  | [] => segments
  | p :: ps =>
    if seg_ids_contain segments p.particle_id then
      mark_merged_particles (set_endpoint segments p.particle_id MgrEndpoint.merged) ps
    else
      mark_merged_particles segments ps

/-- The escaped-particle loop of `default.py` lines 216-217: the dictionary is
indexed directly, so an unknown id raises KeyError. -/
def mark_escaped_particles (segments : List MgrSegment) :
    List MgrParticle → Except String (List MgrSegment)
  | [] => .ok segments
  | p :: ps =>
    if seg_ids_contain segments p.particle_id then
      mark_escaped_particles (set_endpoint segments p.particle_id MgrEndpoint.recycled) ps
    else
      .error "KeyError"

/-- Endpoint marking of `DefaultSimManager.run_we` (lines 209-219): merged
particles first, then escaped particles. -/
def mark_old_segments (segments : List MgrSegment) (merged escaped : List MgrParticle) :
    Except String (List MgrSegment) :=
  mark_escaped_particles (mark_merged_particles segments merged) escaped

/-- `segments_by_id[pid]` in the new-segment loop: direct dictionary indexing,
raising KeyError when absent. -/
def segments_by_id_get (segments : List MgrSegment) (pid : ℤ) :
    Except String MgrSegment :=
  match segments.find? (fun s => decide (s.seg_id = pid)) with
  | some s => .ok s
  | none => .error "KeyError"

/-- Resolve `particle.parents` against `segments_by_id` (lines 262-264). -/
def resolve_parents (segments : List MgrSegment) :
    List MgrParticle → Except String (List ℤ)
  | [] => .ok []
  | pp :: pps =>
    match segments_by_id_get segments pp.particle_id with
    | .error e => .error e
    | .ok s =>
      match resolve_parents segments pps with
      | .error e => .error e
      | .ok rest => .ok (s.seg_id :: rest)

/-- `if particle.parents: s.parents = set([...])` (lines 262-264). -/
def add_merge_parents (segments : List MgrSegment) (q : MgrNewParticle)
    (s : MgrSegment) : Except String MgrSegment :=
  if q.parents.isEmpty then .ok s
  else
    match resolve_parents segments q.parents with
    | .error e => .error e
    | .ok ids => .ok { s with parents := ids }

/-- One step of the new-segment loop of `DefaultSimManager.run_we`
(lines 239-273, the `current_iteration > 0` branch of interest): build the
next iteration's segment for one resampled particle.  When the particle's
primary parent is among the escaped particles, only `data['initial_region']`
is set (to the particle's initial region if truthy, else the parent's
recycling target) — `s.p_parent` is never assigned in that branch. -/
def make_new_segment (new_we_iter current_iteration : ℤ) (segments : List MgrSegment)
    (escaped : List MgrParticle) (q : MgrNewParticle) : Except String MgrSegment :=
  let s0 : MgrSegment :=
    { seg_id := 0, n_iter := new_we_iter, weight := q.weight,
      endpoint_type := MgrEndpoint.continuation,
      initial_region := none, p_parent := none, parents := [] }
  if 0 < current_iteration then
    match q.p_parent with
    | some pp =>
      if escaped.any (fun e => decide (e = pp)) then
        add_merge_parents segments q
          (if truthy q.initial_region then { s0 with initial_region := q.initial_region }
           else { s0 with initial_region := pp.initial_region })
      else
        match segments_by_id_get segments pp.particle_id with
        | .error e => .error e
        | .ok ps => add_merge_parents segments q { s0 with p_parent := some ps.seg_id }
    | none =>
      add_merge_parents segments q
        (if truthy q.initial_region then { s0 with initial_region := q.initial_region }
         else s0)
  else
    .ok (if truthy q.initial_region then { s0 with initial_region := q.initial_region }
         else s0)

/- ### Marking lemmas -/

lemma set_endpoint_contain (segments : List MgrSegment) (pid x : ℤ) (et : MgrEndpoint) :
    seg_ids_contain (set_endpoint segments pid et) x = seg_ids_contain segments x := by
  induction segments with
  | nil => rfl
  | cons s ss ih =>
    unfold set_endpoint seg_ids_contain at *
    simp only [List.map_cons, List.any_cons]
    by_cases h : s.seg_id = pid <;> simp [h, ih]

lemma mark_merged_contain (merged : List MgrParticle) (segments : List MgrSegment) (x : ℤ) :
    seg_ids_contain (mark_merged_particles segments merged) x
      = seg_ids_contain segments x := by
  induction merged generalizing segments with
  | nil => rfl
  | cons p ps ih =>
    unfold mark_merged_particles
    by_cases h : seg_ids_contain segments p.particle_id = true
    · rw [if_pos h, ih, set_endpoint_contain]
    · rw [if_neg h]
      exact ih segments

lemma mark_escaped_error (escaped : List MgrParticle) (segments : List MgrSegment)
    (p : MgrParticle) (hmem : p ∈ escaped)
    (habs : seg_ids_contain segments p.particle_id = false) :
    mark_escaped_particles segments escaped = .error "KeyError" := by
  induction escaped generalizing segments with
  | nil => cases hmem
  | cons q qs ih =>
    unfold mark_escaped_particles
    by_cases hq : seg_ids_contain segments q.particle_id = true
    · rw [if_pos hq]
      rcases List.mem_cons.mp hmem with rfl | hmem'
      · rw [habs] at hq
        cases hq
      · exact ih _ hmem' (by rw [set_endpoint_contain]; exact habs)
    · rw [if_neg hq]

lemma mark_escaped_ok (escaped : List MgrParticle) (segments : List MgrSegment)
    (h : ∀ q ∈ escaped, seg_ids_contain segments q.particle_id = true) :
    ∃ segs', mark_escaped_particles segments escaped = .ok segs' := by
  induction escaped generalizing segments with
  | nil => exact ⟨segments, rfl⟩
  | cons q qs ih =>
    unfold mark_escaped_particles
    rw [if_pos (h q (List.mem_cons_self q qs))]
    exact ih _ (fun r hr => by
      rw [set_endpoint_contain]
      exact h r (List.mem_cons_of_mem q hr))

lemma set_endpoint_recycled_invariant (segments : List MgrSegment) (pid x : ℤ)
    (h : ∀ s ∈ segments, s.seg_id = x → s.endpoint_type = MgrEndpoint.recycled) :
    ∀ s ∈ set_endpoint segments pid MgrEndpoint.recycled, s.seg_id = x →
      s.endpoint_type = MgrEndpoint.recycled := by
  intro s hs hsx
  rcases List.mem_map.mp hs with ⟨t, ht, rfl⟩
  by_cases hc : t.seg_id = pid
  · simp [hc]
  · simp only [if_neg hc] at hsx ⊢
    exact h t ht hsx

lemma set_endpoint_recycled_self (segments : List MgrSegment) (x : ℤ) :
    ∀ s ∈ set_endpoint segments x MgrEndpoint.recycled, s.seg_id = x →
      s.endpoint_type = MgrEndpoint.recycled := by
  intro s hs hsx
  rcases List.mem_map.mp hs with ⟨t, ht, rfl⟩
  by_cases hc : t.seg_id = x
  · simp [hc]
  · simp only [if_neg hc] at hsx ⊢
    exact absurd hsx hc

lemma mark_escaped_preserves (escaped : List MgrParticle)
    (segments segs' : List MgrSegment) (x : ℤ)
    (hmark : mark_escaped_particles segments escaped = .ok segs')
    (h : ∀ s ∈ segments, s.seg_id = x → s.endpoint_type = MgrEndpoint.recycled) :
    ∀ s ∈ segs', s.seg_id = x → s.endpoint_type = MgrEndpoint.recycled := by
  induction escaped generalizing segments with
  | nil =>
    unfold mark_escaped_particles at hmark
    cases hmark
    exact h
  | cons q qs ih =>
    unfold mark_escaped_particles at hmark
    by_cases hq : seg_ids_contain segments q.particle_id = true
    · rw [if_pos hq] at hmark
      exact ih _ hmark (set_endpoint_recycled_invariant segments q.particle_id x h)
    · rw [if_neg hq] at hmark
      cases hmark

lemma mark_escaped_recycled (escaped : List MgrParticle)
    (segments segs' : List MgrSegment) (p : MgrParticle) (hmem : p ∈ escaped)
    (hmark : mark_escaped_particles segments escaped = .ok segs') :
    ∀ s ∈ segs', s.seg_id = p.particle_id → s.endpoint_type = MgrEndpoint.recycled := by
  induction escaped generalizing segments with
  | nil => cases hmem
  | cons q qs ih =>
    unfold mark_escaped_particles at hmark
    by_cases hq : seg_ids_contain segments q.particle_id = true
    · rw [if_pos hq] at hmark
      rcases List.mem_cons.mp hmem with rfl | hmem'
      · exact mark_escaped_preserves qs _ segs' p.particle_id hmark
          (set_endpoint_recycled_self segments p.particle_id)
      · exact ih _ hmem' hmark
    · rw [if_neg hq] at hmark
      cases hmark

lemma add_merge_parents_fields (segments : List MgrSegment) (q : MgrNewParticle)
    (s s' : MgrSegment) (h : add_merge_parents segments q s = .ok s') :
    s'.p_parent = s.p_parent ∧ s'.initial_region = s.initial_region ∧
    s'.endpoint_type = s.endpoint_type ∧ s'.seg_id = s.seg_id ∧ s'.weight = s.weight := by
  unfold add_merge_parents at h
  split at h
  · cases h
    exact ⟨rfl, rfl, rfl, rfl, rfl⟩
  · cases hr : resolve_parents segments q.parents with
    | error e =>
      rw [hr] at h
      cases h
    | ok ids =>
      rw [hr] at h
      cases h
      exact ⟨rfl, rfl, rfl, rfl, rfl⟩

/- ### Claim C10 -/

/-- Claim C10: in the endpoint marking of `DefaultSimManager.run_we`, a merged
particle whose id matches no input segment is silently skipped, while the
escaped-particle loop indexes the segment dictionary directly: an escaped
particle with an unknown id makes the marking step raise KeyError, and the
step succeeds when every escaped id is known. -/
theorem c10_endpoint_marking (segments : List MgrSegment)
    (merged escaped : List MgrParticle) (p : MgrParticle) :
    (seg_ids_contain segments p.particle_id = false →
      mark_old_segments segments (p :: merged) escaped
        = mark_old_segments segments merged escaped) ∧
    (p ∈ escaped → seg_ids_contain segments p.particle_id = false →
      mark_old_segments segments merged escaped = .error "KeyError") ∧
    ((∀ q ∈ escaped, seg_ids_contain segments q.particle_id = true) →
      ∃ segs', mark_old_segments segments merged escaped = .ok segs') := by
  refine ⟨?_, ?_, ?_⟩
  · intro habs
    unfold mark_old_segments
    rw [mark_merged_particles]
    rw [if_neg (by simp [habs])]
  · intro hmem habs
    unfold mark_old_segments
    exact mark_escaped_error escaped _ p hmem
      (by rw [mark_merged_contain]; exact habs)
  · intro hall
    unfold mark_old_segments
    exact mark_escaped_ok escaped _ (fun q hq => by
      rw [mark_merged_contain]
      exact hall q hq)

/-- The single input segment for the C10 witness. -/
def c10Seg : MgrSegment :=
  { seg_id := 1, n_iter := 3, weight := 1, endpoint_type := MgrEndpoint.continuation,
    initial_region := none, p_parent := none, parents := [] }

/-- A particle whose id (7) matches no input segment. -/
def c10Unknown : MgrParticle := { particle_id := 7, weight := 1, initial_region := none }

/-- Witness for `c10_endpoint_marking` at a concrete input: the unknown merged
particle is skipped, but the same unknown particle among the escaped ones makes
the marking raise KeyError. -/
theorem c10_endpoint_marking_witness :
    seg_ids_contain [c10Seg] c10Unknown.particle_id = false ∧
    c10Unknown ∈ [c10Unknown] ∧
    mark_old_segments [c10Seg] [c10Unknown] [] = mark_old_segments [c10Seg] [] [] ∧
    mark_old_segments [c10Seg] [] [c10Unknown] = .error "KeyError" := by
  have habs : seg_ids_contain [c10Seg] c10Unknown.particle_id = false := by
    simp [seg_ids_contain, c10Seg, c10Unknown]
  exact ⟨habs, List.mem_singleton.mpr rfl,
    (c10_endpoint_marking [c10Seg] [] [] c10Unknown).1 habs,
    (c10_endpoint_marking [c10Seg] [] [c10Unknown] c10Unknown).2.1
      (List.mem_singleton.mpr rfl) habs⟩

/- ### Claim C5 -/

/-- The sink-entering segment of iteration 1 for the C5 analysis. -/
def c5Seg : MgrSegment :=
  { seg_id := 1, n_iter := 1, weight := 1, endpoint_type := MgrEndpoint.continuation,
    initial_region := none, p_parent := none, parents := [] }

/-- The corresponding escaped particle, recycled into region source_0. -/
def c5Escaped : MgrParticle :=
  { particle_id := 1, weight := 1, initial_region := some "source_0" }

/-- The resampled particle produced for the next iteration, whose primary
parent is the escaped particle. -/
def c5NewParticle : MgrNewParticle :=
  { weight := 1, p_parent := some c5Escaped, parents := [],
    initial_region := some "source_0" }

/-- Claim C5 counterexample: for the segment entering the sink, the endpoint
is indeed set to RECYCLED and the next-iteration child carries
`initial_region = source_0`; but the child's primary-parent reference is never
assigned (it stays None instead of pointing back to segment 1), because
`default.py` lines 252-256 set only `data['initial_region']` when the parent
particle escaped. -/
theorem c5_parent_ref_counterexample :
    mark_old_segments [c5Seg] [] [c5Escaped]
      = .ok [{ c5Seg with endpoint_type := MgrEndpoint.recycled }] ∧
    (∃ s, make_new_segment 2 1 [c5Seg] [c5Escaped] c5NewParticle = .ok s ∧
      s.initial_region = some "source_0" ∧
      s.p_parent = none ∧
      ¬ s.p_parent = some c5Seg.seg_id) := by
  constructor
  · rfl
  · refine ⟨{ seg_id := 0, n_iter := 2, weight := 1,
              endpoint_type := MgrEndpoint.continuation,
              initial_region := some "source_0", p_parent := none, parents := [] },
      ?_, rfl, rfl, by simp⟩
    rfl

/-- Claim C5 amended: for every resampled particle whose primary parent is an
escaped (sink-entering) particle, the sink-entering segment is marked
RECYCLED and the child segment gets `initial_region` set to the particle's
initial region if truthy, else the parent's recycling target — but the child's
primary-parent reference is left unset (None); the lineage link back to the
sink-entering segment is not recorded on the child. -/
theorem c5_recycled_child (nwi current_iteration : ℤ) (segments : List MgrSegment)
    (merged escaped : List MgrParticle) (segs' : List MgrSegment)
    (q : MgrNewParticle) (pp : MgrParticle)
    (hci : 0 < current_iteration)
    (hpp : q.p_parent = some pp)
    (hesc : escaped.any (fun e => decide (e = pp)) = true)
    (hmem : pp ∈ escaped)
    (hmark : mark_old_segments segments merged escaped = .ok segs') :
    (∀ s, make_new_segment nwi current_iteration segments escaped q = .ok s →
      s.p_parent = none ∧
      s.initial_region
        = (if truthy q.initial_region then q.initial_region else pp.initial_region)) ∧
    (q.parents = [] →
      ∃ s, make_new_segment nwi current_iteration segments escaped q = .ok s) ∧
    (∀ s ∈ segs', s.seg_id = pp.particle_id →
      s.endpoint_type = MgrEndpoint.recycled) := by
  refine ⟨?_, ?_, ?_⟩
  · intro s hok
    unfold make_new_segment at hok
    rw [if_pos hci, hpp] at hok
    dsimp only at hok
    rw [if_pos hesc] at hok
    obtain ⟨h1, h2, -, -, -⟩ := add_merge_parents_fields _ _ _ _ hok
    constructor
    · rw [h1]
      by_cases ht : truthy q.initial_region = true <;> simp [ht]
    · rw [h2]
      by_cases ht : truthy q.initial_region = true <;> simp [ht]
  · intro hpar
    unfold make_new_segment
    rw [if_pos hci, hpp]
    dsimp only
    rw [if_pos hesc]
    unfold add_merge_parents
    rw [hpar]
    simp
  · unfold mark_old_segments at hmark
    exact mark_escaped_recycled escaped _ segs' pp hmem hmark

/-- Witness for `c5_recycled_child` at the concrete recycling scenario. -/
theorem c5_recycled_child_witness :
    ((0:ℤ) < 1 ∧
     c5NewParticle.p_parent = some c5Escaped ∧
     [c5Escaped].any (fun e => decide (e = c5Escaped)) = true ∧
     c5Escaped ∈ [c5Escaped] ∧
     mark_old_segments [c5Seg] [] [c5Escaped]
       = .ok [{ c5Seg with endpoint_type := MgrEndpoint.recycled }]) ∧
    ((∀ s, make_new_segment 2 1 [c5Seg] [c5Escaped] c5NewParticle = .ok s →
      s.p_parent = none ∧
      s.initial_region = (if truthy c5NewParticle.initial_region
        then c5NewParticle.initial_region else c5Escaped.initial_region)) ∧
    (c5NewParticle.parents = [] →
      ∃ s, make_new_segment 2 1 [c5Seg] [c5Escaped] c5NewParticle = .ok s) ∧
    (∀ s ∈ [{ c5Seg with endpoint_type := MgrEndpoint.recycled }],
      s.seg_id = c5Escaped.particle_id → s.endpoint_type = MgrEndpoint.recycled)) :=
  ⟨⟨by decide, rfl, by simp, by simp, rfl⟩,
   c5_recycled_child 2 1 [c5Seg] [] [c5Escaped]
     [{ c5Seg with endpoint_type := MgrEndpoint.recycled }] c5NewParticle c5Escaped
     (by decide) rfl (by simp) (by simp) rfl⟩

/- ### Claim C6: the rate-averaging window (`weed_driver.py` lines 55-71) -/

/-- Python `int()` truncation toward zero on a rational. -/
def pyint (q : ℚ) : ℤ := if 0 ≤ q then ⌊q⌋ else -⌊-q⌋

/-- `self.windowtype`, set from `weed.window_size`. -/
inductive WindowType
  | fraction
  | fixed
deriving DecidableEq

/-- Window configuration of the WEED driver (`weed_driver.py` lines 26-46). -/
structure RatesConfig where
  windowtype : WindowType
  windowsize_fraction : ℚ
  windowsize_fixed : ℤ
  max_windowsize : Option ℤ
deriving DecidableEq

/-- Effective window size computed by `WEEDDriver.get_rates` (lines 60-66):
for fractional windows `int(n_iter * windowsize)`, clamped by
`max_windowsize` when that is set; for fixed windows
`min(n_iter, windowsize or 0)`, with no clamping. -/
def eff_windowsize (cfg : RatesConfig) (n_iter : ℤ) : ℤ :=
  match cfg.windowtype with
  | WindowType.fraction =>
    match cfg.max_windowsize with
    | some m => min m (pyint ((n_iter : ℚ) * cfg.windowsize_fraction))
    | none => pyint ((n_iter : ℚ) * cfg.windowsize_fraction)
  | WindowType.fixed =>
    min n_iter (if cfg.windowsize_fixed = 0 then 0 else cfg.windowsize_fixed)

/-- The window size and averaging bounds handed to `RateAverager.calculate`. -/
structure RatesCall where
  eff : ℤ
  lo : ℤ
  hi : ℤ
deriving DecidableEq

/-- `WEEDDriver.get_rates`: `averager.calculate(max(1, n_iter-eff_windowsize),
n_iter+1)` (line 69). -/
def get_rates (cfg : RatesConfig) (n_iter : ℤ) : RatesCall :=
  let e := eff_windowsize cfg n_iter
  { eff := e, lo := max 1 (n_iter - e), hi := n_iter + 1 }

/-- The window as worded by the claim: `int(N*f)` resp. `min(N, c)`, in both
cases clamped from above by `max_window_size` when set. -/
def eff_windowsize_claim (cfg : RatesConfig) (n_iter : ℤ) : ℤ :=
  let base :=
    match cfg.windowtype with
    | WindowType.fraction => pyint ((n_iter : ℚ) * cfg.windowsize_fraction)
    | WindowType.fixed => min n_iter cfg.windowsize_fixed
  match cfg.max_windowsize with
  | some m => min base m
  | none => base

/-- The amended wording: the `max_window_size` clamp applies only to
fractional windows; a fixed window is `min(N, c)` unclamped. -/
def eff_windowsize_amended (cfg : RatesConfig) (n_iter : ℤ) : ℤ :=
  match cfg.windowtype with
  | WindowType.fraction =>
    match cfg.max_windowsize with
    | some m => min m (pyint ((n_iter : ℚ) * cfg.windowsize_fraction))
    | none => pyint ((n_iter : ℚ) * cfg.windowsize_fraction)
  | WindowType.fixed => min n_iter cfg.windowsize_fixed

/-- Fixed window of 10 iterations with `max_window_size = 3`. -/
def c6Config : RatesConfig :=
  { windowtype := WindowType.fixed, windowsize_fraction := 1/2,
    windowsize_fixed := 10, max_windowsize := some 3 }

/-- Claim C6 counterexample: with a fixed window of 10, `max_window_size = 3`
and `n_iter = 10`, the code uses effective window 10 (`weed_driver.py`
line 66 has no clamp in the fixed branch), whereas the claim, clamping in both
cases, demands 3. -/
theorem c6_window_clamp_counterexample :
    eff_windowsize c6Config 10 = 10 ∧
    eff_windowsize_claim c6Config 10 = 3 ∧
    eff_windowsize c6Config 10 ≠ eff_windowsize_claim c6Config 10 := by
  refine ⟨by decide, by decide, by decide⟩

/-- Claim C6 amended: the effective window W is `int(N*f)` for fractional
windows, clamped from above by `max_window_size` when set, and `min(N, c)`
for fixed windows with no clamping; the rate and population statistics are
requested over exactly the range `[max(1, N-W), N+1)`. -/
theorem c6_effective_window (cfg : RatesConfig) (n_iter : ℤ) :
    eff_windowsize cfg n_iter = eff_windowsize_amended cfg n_iter ∧
    get_rates cfg n_iter
      = { eff := eff_windowsize cfg n_iter
          lo := max 1 (n_iter - eff_windowsize cfg n_iter)
          hi := n_iter + 1 } := by
  constructor
  · unfold eff_windowsize eff_windowsize_amended
    cases hw : cfg.windowtype
    · rfl
    · by_cases h : cfg.windowsize_fixed = 0 <;> simp [h]
  · rfl

/- ### Claim C9: the simulation loop (`we_sim.py` lines 290-309,
`default.py` lines 27-34 and 308-309) -/

/-- `limits.max_iterations` and the parsed `limits.max_wallclock` budget in
seconds (`default.py` lines 27-34). -/
structure SimLimits where
  max_iterations : ℤ
  max_wallclock : Option ℚ
deriving DecidableEq

/-- `DefaultSimManager.continue_simulation` (`default.py` lines 308-309): the
test consults only the iteration counter; the parsed `max_wallclock` and the
elapsed wallclock are never read. -/
def continue_simulation (limits : SimLimits) (current_iteration : ℤ)
    (elapsed_wallclock : ℚ) : Bool :=
  decide (current_iteration ≤ limits.max_iterations)

/-- The claim's loop condition: iteration bound and wallclock budget. -/
def continue_simulation_claim (limits : SimLimits) (current_iteration : ℤ)
    (elapsed_wallclock : ℚ) : Bool :=
  decide (current_iteration ≤ limits.max_iterations) &&
    (match limits.max_wallclock with
     | some budget => decide (elapsed_wallclock ≤ budget)
     | none => true)

/-- Termination message logged by `run_sim` (`we_sim.py` line 309). -/
def msg_max_iterations : String := "maximum number of iterations reached"

/-- `WESimDriver.run_sim` (`we_sim.py` lines 290-309), fuel-indexed.  Each
body pass runs one WE iteration; the counter advance happens inside the
external WE driver.  Modelled from the spec: the missing `wemd.we_drivers`
code advances the iteration counter by one per pass (spec section 4.6 step 5).
Returns the final iteration counter, the number of body executions, and the
termination message (`none` when fuel ran out). -/
def run_sim_loop (limits : SimLimits) (elapsed : ℚ) :
    ℕ → ℤ → ℤ × ℕ × Option String
  | 0, i => (i, 0, none)
  | Nat.succ fuel, i =>
    if continue_simulation limits i elapsed then
      let r := run_sim_loop limits elapsed fuel (i + 1)
      (r.1, r.2.1 + 1, r.2.2)
    else
      (i, 0, some msg_max_iterations)

/-- Limits with a 10-second wallclock budget. -/
def c9Limits : SimLimits := { max_iterations := 5, max_wallclock := some 10 }

/-- Claim C9 counterexample: at iteration 1 with the 10-second wallclock
budget long exceeded (elapsed 100), the code still continues iterating,
whereas the claimed loop condition requires stopping; `limits.max_wallclock`
is parsed (`default.py` lines 28-34) but never consulted. -/
theorem c9_wallclock_counterexample :
    continue_simulation c9Limits 1 100 = true ∧
    continue_simulation_claim c9Limits 1 100 = false := by
  constructor
  · norm_num [continue_simulation, c9Limits]
  · norm_num [continue_simulation_claim, c9Limits]

lemma run_sim_loop_terminates (limits : SimLimits) (elapsed : ℚ) :
    ∀ (fuel : ℕ) (start : ℤ), start ≤ limits.max_iterations + 1 →
      (limits.max_iterations + 1 - start).toNat < fuel →
      run_sim_loop limits elapsed fuel start
        = (limits.max_iterations + 1, (limits.max_iterations + 1 - start).toNat,
           some msg_max_iterations) := by
  intro fuel
  induction fuel with
  | zero =>
    intro start hstart hfuel
    omega
  | succ fuel ih =>
    intro start hstart hfuel
    unfold run_sim_loop
    by_cases hc : start ≤ limits.max_iterations
    · rw [if_pos (by simp [continue_simulation, hc])]
      dsimp only
      rw [ih (start + 1) (by omega) (by omega)]
      dsimp only
      have h3 : (limits.max_iterations + 1 - (start + 1)).toNat + 1
          = (limits.max_iterations + 1 - start).toNat := by omega
      rw [h3]
    · rw [if_neg (by simp [continue_simulation, hc])]
      have h2 : (limits.max_iterations + 1 - start).toNat = 0 := by omega
      have h1 : start = limits.max_iterations + 1 := by omega
      rw [h2, h1]

/-- Claim C9 amended: the simulation loop continues exactly while
`current_iteration ≤ max_iterations`; the continuation test ignores the
elapsed wallclock entirely (`max_wallclock` is parsed but never consulted),
and on termination the loop reports only that the maximum number of
iterations was reached. -/
theorem c9_sim_loop_termination (limits : SimLimits) (start : ℤ)
    (elapsed elapsed2 : ℚ) (i : ℤ) (fuel : ℕ)
    (hstart : start ≤ limits.max_iterations + 1)
    (hfuel : (limits.max_iterations + 1 - start).toNat < fuel) :
    (continue_simulation limits i elapsed = continue_simulation limits i elapsed2) ∧
    (continue_simulation limits i elapsed = true ↔ i ≤ limits.max_iterations) ∧
    run_sim_loop limits elapsed fuel start
      = (limits.max_iterations + 1, (limits.max_iterations + 1 - start).toNat,
         some msg_max_iterations) :=
  ⟨rfl, by simp [continue_simulation],
   run_sim_loop_terminates limits elapsed fuel start hstart hfuel⟩

/-- Witness for `c9_sim_loop_termination`: three iterations run to completion
although the 1-second wallclock budget is exceeded from the start. -/
theorem c9_sim_loop_termination_witness :
    ((1:ℤ) ≤ { max_iterations := 3, max_wallclock := some 1 : SimLimits }.max_iterations + 1 ∧
     (({ max_iterations := 3, max_wallclock := some 1 : SimLimits }.max_iterations
        + 1 - 1).toNat < 4)) ∧
    ((continue_simulation { max_iterations := 3, max_wallclock := some 1 } 2 100
        = continue_simulation { max_iterations := 3, max_wallclock := some 1 } 2 0) ∧
     (continue_simulation { max_iterations := 3, max_wallclock := some 1 } 2 100 = true ↔
        (2:ℤ) ≤ { max_iterations := 3, max_wallclock := some 1 : SimLimits }.max_iterations) ∧
     run_sim_loop { max_iterations := 3, max_wallclock := some 1 } 100 4 1
       = ({ max_iterations := 3, max_wallclock := some 1 : SimLimits }.max_iterations + 1,
          ({ max_iterations := 3, max_wallclock := some 1 : SimLimits }.max_iterations
            + 1 - 1).toNat,
          some msg_max_iterations)) :=
  ⟨⟨by decide, by decide⟩,
   c9_sim_loop_termination { max_iterations := 3, max_wallclock := some 1 } 1 100 0 2 4
     (by decide) (by decide)⟩
